import Mathlib

/-!
Shallow embedding of `transformers_multiclass_classification.py`, a single-run
fine-tuning pipeline (news headline classification with DistilBERT), together
with theorems settling the specification claims about it.

Pandas dataframes are modelled as Lean lists (a dataframe column is a
`List String`, a row index is a `Nat`); the mutable Python dict
`encode_dict` is threaded explicitly as an association list; a raised
`KeyError` is modelled as `Option.none`; tensors entering the validation
loop are modelled as lists of per-example score vectors over `ℚ`.
-/

namespace NewsMulticlass

/-! ### Section 02 of the script: importing and pre-processing the data -/

/-- The hand-written code-to-name dictionary `my_dict` (script lines 118-123),
as an insertion-ordered association list. -/
def my_dict : List (String × String) :=
  [("e", "Entertainment"), ("b", "Business"), ("t", "Science"), ("m", "Health")]

/-- Python dict subscript `d[x]`: `some` value on a hit, `none` for the
`KeyError` raised on a miss. -/
def dictLookup (d : List (String × String)) (x : String) : Option String :=
  (d.find? fun p => p.1 == x).map Prod.snd

/-- `update_cat(x) = my_dict[x]` (script lines 125-126); `none` models the
uncaught `KeyError` on an unknown category code. -/
def update_cat (x : String) : Option String := dictLookup my_dict x

/-- The four known category codes, in the order `my_dict` lists them. -/
def knownCodes : List String := my_dict.map Prod.fst

/-- The number of news categories the script is meant to distinguish. -/
def numCategories : Nat := my_dict.length

/-- `df['CATEGORY'].apply(lambda x: update_cat(x))` (script line 128): mapping
`update_cat` over the CATEGORY column; a `KeyError` anywhere aborts the whole
`apply`, so the result is `none` as soon as one row has an unknown code. -/
def categoryColumn : List String → Option (List String)
  | [] => some []
  | x :: xs =>
    match update_cat x, categoryColumn xs with
    | some y, some ys => some (y :: ys)
    | _, _ => none

/-- `encode_cat` (script lines 132-135) acting on the mutable `encode_dict`,
modelled as an insertion-ordered association list from category name to the
index `len(encode_dict)` had when the name was inserted.  The code inserts a
missing key and then returns `len(encode_dict)` — the length AFTER the
insertion, not the stored index `encode_dict[x]`. -/
def encode_cat (x : String) (encode_dict : List (String × Nat)) :
    Nat × List (String × Nat) :=
  let d := if (encode_dict.find? fun p => p.1 == x).isSome then encode_dict
           else encode_dict ++ [(x, encode_dict.length)]
  (d.length, d)

/-- `df['ENCODE_CAT'] = df['CATEGORY'].apply(lambda x: encode_cat(x))` (script
line 137): mapping `encode_cat` over the CATEGORY column while threading the
mutable `encode_dict`. -/
def encodeColumn : List (String × Nat) → List String → List Nat
  | _, [] => []
  | d, x :: xs =>
    let r := encode_cat x d
    r.1 :: encodeColumn r.2 xs

/-! ### Section 03 of the script: key variables, dataset split, dataloaders -/

def MAX_LEN : Nat := 512

def TRAIN_BATCH_SIZE : Nat := 4

def VALID_BATCH_SIZE : Nat := 2

def EPOCHS : Nat := 1

def LEARNING_RATE : ℚ := 1 / 100000

/-- The checkpoint string passed to `DistilBertTokenizer.from_pretrained`
(script line 169). -/
def tokenizer_checkpoint : String := "distilbert-base-cased"

def train_size : ℚ := 8 / 10

/-- `df.sample(frac=0.8, random_state=200).reset_index(drop=True)` (script
line 208): pandas draws a pseudo-random set of distinct row positions; the
draw itself lives in the pandas RNG, so it enters the model as the parameter
`sel`.  `reset_index(drop=True)` renumbers the sampled rows `0..k-1`. -/
def train_dataset {α : Type} (df : List α) (sel : List Nat) : List α :=
  sel.filterMap fun i => df.get? i

/-- `df.drop(train_dataset.index).reset_index(drop=True)` (script line 209):
after `reset_index`, `train_dataset.index` is `RangeIndex(0, k)`, so pandas
drops the labels `0..k-1` from the ORIGINAL dataframe — the first `k` rows by
position, not the sampled rows. -/
def test_dataset {α : Type} (df : List α) (sel : List Nat) : List α :=
  df.drop (train_dataset df sel).length

/-- The keyword arguments building the training `DataLoader`
(script lines 221-224) and the testing `DataLoader` (lines 226-229). -/
structure DataLoaderParams where
  batch_size : Nat
  shuffle : Bool
  num_workers : Nat
deriving DecidableEq

def train_params : DataLoaderParams :=
  { batch_size := TRAIN_BATCH_SIZE, shuffle := true, num_workers := 0 }

def test_params : DataLoaderParams :=
  { batch_size := VALID_BATCH_SIZE, shuffle := true, num_workers := 0 }

/-! ### Section 04 of the script: the network -/

/-- A `torch.nn.Linear(in_features, out_features)` layer, by its shape. -/
structure LinearLayer where
  in_features : Nat
  out_features : Nat
deriving DecidableEq

/-- `DistillBERTClass.__init__` (script lines 260-264): the pretrained
DistilBERT encoder `l1`, a dropout `l2`, and the classification head
`l3 = torch.nn.Linear(768, 1)`. -/
structure DistillBERTClass where
  l1_checkpoint : String
  l1_hidden_size : Nat
  l2_dropout_p : ℚ
  l3 : LinearLayer

/-- The instance built by `DistillBERTClass()` (script line 274), with the
literal arguments of `__init__`. -/
def distillBERTClassInit : DistillBERTClass :=
  { l1_checkpoint := "distilbert-base-uncased"
    l1_hidden_size := 768
    l2_dropout_p := 3 / 10
    l3 := { in_features := 768, out_features := 1 } }

/-! ### Top-level control flow and I/O of the script -/

/-- The top-level stages the script executes, in source order. -/
inductive Step where
  | loadData : Step
  | buildLoaders : Step
  | buildModel : Step
  | trainEpoch : Nat → Step
  | runValidation : Step
  | saveModel : Step
  | saveVocab : Step
deriving DecidableEq

/-- The epochs the loop `for epoch in range(EPOCHS)` (script line 323) passes
to `train`. -/
def trainInvocations : List Nat := List.range EPOCHS

/-- The linear top-level trace of the script: load and pre-process the data,
build datasets and loaders, build the model, run `train` once per epoch, run
`valid`, save the model file, save the vocabulary file. -/
def scriptTrace : List Step :=
  Step.loadData :: Step.buildLoaders :: Step.buildModel ::
    (trainInvocations.map Step.trainEpoch ++
      [Step.runValidation, Step.saveModel, Step.saveVocab])

/-- Whether a stage is an invocation of the `train` function. -/
def Step.isTrain : Step → Bool
  | Step.trainEpoch _ => true
  | _ => false

/-- The column names given to `pd.read_csv` (script line 111). -/
def inputColumns : List String :=
  ["ID", "TITLE", "URL", "PUBLISHER", "CATEGORY", "STORY", "HOSTNAME", "TIMESTAMP"]

def output_model_file : String := "./models/pytorch_distilbert_news.bin"

def output_vocab_file : String := "./models/vocab_distilbert_news.bin"

/-- A file-system interaction of the script: a read of a
separator-delimited file parsed into named columns, or a write of an
artifact file. -/
inductive IOEvent where
  | readFile : String → Char → List String → IOEvent
  | writeFile : String → String → IOEvent
deriving DecidableEq

def IOEvent.isRead : IOEvent → Bool
  | IOEvent.readFile _ _ _ => true
  | _ => false

def IOEvent.isWrite : IOEvent → Bool
  | IOEvent.writeFile _ _ => true
  | _ => false

/-- Every file interaction the script performs, in source order: the
`pd.read_csv` of the tab-separated corpus (line 111), `torch.save` of the
model weights (line 379), and `tokenizer.save_vocabulary` (line 380). -/
def scriptIOTrace : List IOEvent :=
  [IOEvent.readFile "./data/newsCorpora.csv" '\t' inputColumns,
   IOEvent.writeFile output_model_file "serialized model weights",
   IOEvent.writeFile output_vocab_file "serialized tokenizer vocabulary"]

/-! ### Section 06 of the script: the validation loop -/

/-- One batch yielded by the testing loader (the dict built by
`Triage.__getitem__`, lines 194-198): token ids, attention mask, and the
integer targets, one per example in the batch. -/
structure Batch where
  ids : List (List Nat)
  mask : List (List Nat)
  targets : List Nat
deriving DecidableEq

/-- The model state `valid` receives: the trainable parameters, the
train/eval mode flag, and the forward computation
`model(ids, mask).squeeze()` producing one row of class scores per example
(the forward may consult the mode flag, as dropout does, and the
parameters, but these enter it read-only). -/
structure Model where
  params : List ℚ
  training : Bool
  forward : Bool → List ℚ → List (List Nat) → List (List Nat) → List (List ℚ)

/-- `model.eval()` (script line 339): clears the training flag; it touches no
parameter. -/
def evalMode (m : Model) : Model :=
  { m with training := false }

/-- The row-wise index `big_idx` returned by `torch.max(outputs.data, dim=1)`
(script line 347) for one row: the position of the first maximal score. -/
def argmaxIdx : List ℚ → Nat
  | [] => 0
  | [_] => 0
  | x :: y :: rest =>
    let j := argmaxIdx (y :: rest)
    if (y :: rest).getD j 0 > x then j + 1 else 0

/-- The running counters of the validation loop (script line 340):
`n_correct = 0; n_wrong = 0; total = 0`.  The code never updates
`n_wrong`. -/
structure ValidCounters where
  n_correct : Nat
  n_wrong : Nat
  total : Nat
deriving DecidableEq

/-- The body of the `for _, data in enumerate(testing_loader, 0)` loop
(script lines 342-349): run the forward pass, take the row-wise argmax,
add `(big_idx == targets).sum()` to `n_correct` and `targets.size(0)` to
`total`. -/
def validBatchStep (m : Model) (c : ValidCounters) (data : Batch) : ValidCounters :=
  let outputs := m.forward m.training m.params data.ids data.mask
  let big_idx := outputs.map argmaxIdx
  { n_correct := c.n_correct + ((big_idx.zip data.targets).filter fun p => p.1 == p.2).length
    n_wrong := c.n_wrong
    total := c.total + data.targets.length }

/-- `valid(model, testing_loader)` (script lines 338-350): switch the model
to eval mode, fold the loop body over the loader, and return
`(n_correct*100.0)/total` together with the model state as the loop leaves
it (the loop reads the model but never rebinds it). -/
def valid (model : Model) (testing_loader : List Batch) : ℚ × Model :=
  let m := evalMode model
  let r := testing_loader.foldl (fun (s : ValidCounters × Model) data =>
    (validBatchStep s.2 s.1 data, s.2)) (⟨0, 0, 0⟩, m)
  ((r.1.n_correct * 100 : ℚ) / (r.1.total : ℚ), r.2)

/-- The number of examples of one batch whose predicted class index (the
row-wise argmax of the model outputs) equals the target. -/
def batchCorrect (m : Model) (data : Batch) : Nat :=
  (((m.forward m.training m.params data.ids data.mask).map argmaxIdx).zip
      data.targets |>.filter fun p => p.1 == p.2).length

/-- The number of correctly predicted examples over a whole loader. -/
def loaderCorrect (m : Model) (loader : List Batch) : Nat :=
  (loader.map (batchCorrect m)).sum

/-- The total number of examples a loader yields. -/
def loaderTotal (loader : List Batch) : Nat :=
  (loader.map fun data => data.targets.length).sum

/-- A concrete model for evaluating `valid`: the forward pass reads the score
rows straight off the token ids. -/
def cModel : Model :=
  { params := [1]
    training := true
    forward := fun _ _ ids _ => ids.map fun row => row.map fun n => (n : ℚ) }

/-- A concrete one-batch loader with two examples, both labelled 0; under
`cModel` the first is predicted 0 (correct) and the second 1 (wrong). -/
def cLoader : List Batch :=
  [{ ids := [[1, 0], [0, 1]], mask := [[1, 1], [1, 1]], targets := [0, 0] }]

/-! ### Helper lemmas -/

/-- `update_cat` succeeds exactly on the four known codes. -/
theorem update_cat_isSome_iff (x : String) :
    (update_cat x).isSome ↔ x ∈ knownCodes := by
  simp [update_cat, dictLookup, knownCodes, List.find?_isSome, List.mem_map,
    beq_iff_eq]

/-- A `KeyError` on any row aborts the whole column `apply`. -/
theorem categoryColumn_none_of_mem {x : String} (hx : update_cat x = none) :
    ∀ cats : List String, x ∈ cats → categoryColumn cats = none := by
  intro cats
  induction cats with
  | nil => intro h; cases h
  | cons y ys ih =>
    intro h
    rcases List.mem_cons.mp h with rfl | hmem
    · simp [categoryColumn, hx]
    · have hys := ih hmem
      cases hy : update_cat y <;> simp [categoryColumn, hy, hys]

/-- Unfolding the validation fold: the counters accumulate the per-batch
correct counts and example totals, and the threaded model state is returned
untouched. -/
theorem valid_foldl_spec (m : Model) (l : List Batch) (a w t : Nat) :
    (l.foldl (fun (s : ValidCounters × Model) data =>
        (validBatchStep s.2 s.1 data, s.2)) (⟨a, w, t⟩, m)) =
      (⟨a + loaderCorrect m l, w, t + loaderTotal l⟩, m) := by
  induction l generalizing a t with
  | nil => simp [loaderCorrect, loaderTotal]
  | cons b bs ih =>
    rw [List.foldl_cons]
    have hstep : validBatchStep m ⟨a, w, t⟩ b =
        ⟨a + batchCorrect m b, w, t + b.targets.length⟩ := by
      simp [validBatchStep, batchCorrect]
    rw [hstep, ih]
    simp only [loaderCorrect, loaderTotal, List.map_cons, List.sum_cons,
      Prod.mk.injEq, ValidCounters.mk.injEq]
    exact ⟨⟨by omega, trivial, by omega⟩, trivial⟩

/-! ### The claims -/

/-- C1: false of the code — `encode_cat` returns `len(encode_dict)` after the
insertion, not the dense first-seen index stored in the dict.  On the category
codes `e, b, e` the three rows get labels `1, 2, 2`: the two Entertainment
rows receive different labels, and neither equals the index `0` the dict
assigned to Entertainment.  Once all four categories have been seen, every
further row gets label `4` regardless of its category. -/
theorem encode_cat_failing_input :
    categoryColumn ["e", "b", "e"] =
      some ["Entertainment", "Business", "Entertainment"] ∧
    encodeColumn [] ["Entertainment", "Business", "Entertainment"] = [1, 2, 2] ∧
    (encode_cat "Entertainment" []).2 = [("Entertainment", 0)] ∧
    encodeColumn [] ["Entertainment", "Business", "Science", "Health",
      "Entertainment"] = [1, 2, 3, 4, 4] := by
  refine ⟨rfl, rfl, rfl, rfl⟩

/-- C2: false of the code — the classification head built by
`DistillBERTClass.__init__` is `torch.nn.Linear(768, 1)`: it maps the
768-dimensional encoder output to ONE score, not one per category, although
the script's task has four categories. -/
theorem classifier_head_output_dim :
    distillBERTClassInit.l3.in_features = 768 ∧
    distillBERTClassInit.l3.out_features = 1 ∧
    numCategories = 4 ∧
    distillBERTClassInit.l3.out_features ≠ numCategories := by
  refine ⟨rfl, rfl, rfl, by decide⟩

/-- C3: false of the code — `df.drop(train_dataset.index)` drops the labels
`0..k-1` of the ORIGINAL dataframe (the sampled frame was reindexed before
`.index` was read), so the test set is the trailing 20% of the original rows
by position.  On a 5-row dataframe whose sample selects positions
`[4, 0, 1, 2]`, row `4` lands in both datasets and row `3` in neither; the
80%/20% sizes do hold. -/
theorem train_test_not_partition :
    train_dataset [0, 1, 2, 3, 4] [4, 0, 1, 2] = ([4, 0, 1, 2] : List Nat) ∧
    test_dataset [0, 1, 2, 3, 4] [4, 0, 1, 2] = ([4] : List Nat) ∧
    (4 : Nat) ∈ train_dataset [0, 1, 2, 3, 4] [4, 0, 1, 2] ∧
    (4 : Nat) ∈ test_dataset [0, 1, 2, 3, 4] [4, 0, 1, 2] ∧
    (3 : Nat) ∈ ([0, 1, 2, 3, 4] : List Nat) ∧
    (3 : Nat) ∉ train_dataset [0, 1, 2, 3, 4] [4, 0, 1, 2] ∧
    (3 : Nat) ∉ test_dataset [0, 1, 2, 3, 4] [4, 0, 1, 2] ∧
    (train_dataset [0, 1, 2, 3, 4] [4, 0, 1, 2]).length = 4 ∧
    (test_dataset [0, 1, 2, 3, 4] [4, 0, 1, 2]).length = 1 ∧
    ([4, 0, 1, 2] : List Nat).Nodup := by
  decide

/-- C5: for a row whose category code is outside the four known codes `e`,
`b`, `t`, `m`, the dict subscript in `update_cat` raises a `KeyError`
(modelled `none`) and the column `apply` propagates it uncaught; on each of
the four known codes `update_cat` succeeds with the corresponding
human-readable name. -/
theorem update_cat_spec (x : String) (cats : List String) :
    (x ∉ knownCodes → update_cat x = none) ∧
    (x ∉ knownCodes → x ∈ cats → categoryColumn cats = none) ∧
    (x ∈ knownCodes → (update_cat x).isSome) ∧
    update_cat "e" = some "Entertainment" ∧
    update_cat "b" = some "Business" ∧
    update_cat "t" = some "Science" ∧
    update_cat "m" = some "Health" := by
  refine ⟨fun hx => ?_, fun hx hmem => ?_, fun hx => (update_cat_isSome_iff x).mpr hx,
    rfl, rfl, rfl, rfl⟩
  · rcases h : update_cat x with _ | v
    · rfl
    · exact absurd ((update_cat_isSome_iff x).mp (by simp [h])) hx
  · refine categoryColumn_none_of_mem ?_ cats hmem
    rcases h : update_cat x with _ | v
    · rfl
    · exact absurd ((update_cat_isSome_iff x).mp (by simp [h])) hx

/-- Witness for C5 at the concrete unknown code `"z"` in a concrete column. -/
theorem update_cat_spec_witness :
    update_cat "z" = none ∧ categoryColumn ["e", "z"] = none :=
  ⟨(update_cat_spec "z" ["e", "z"]).1 (by decide),
   (update_cat_spec "z" ["e", "z"]).2.1 (by decide) (by decide)⟩

/-- C4 as stated is false: `valid` does not return `correct/total` but the
percentage `correct*100/total`.  On a concrete loader with two examples of
which one is predicted correctly, `valid` returns `50`, while the ratio of
correct to total examples is `1/2`. -/
theorem valid_not_plain_ratio :
    (valid cModel cLoader).1 = 50 ∧
    (loaderCorrect (evalMode cModel) cLoader : ℚ) / (loaderTotal cLoader : ℚ)
      = 1 / 2 ∧
    (valid cModel cLoader).1 ≠
      (loaderCorrect (evalMode cModel) cLoader : ℚ) / (loaderTotal cLoader : ℚ) := by
  have hc : loaderCorrect (evalMode cModel) cLoader = 1 := by decide
  have ht2 : loaderTotal cLoader = 2 := by decide
  have hfold := valid_foldl_spec (evalMode cModel) cLoader 0 0 0
  have hv : (valid cModel cLoader).1 = 50 := by
    norm_num [valid, hfold, hc, ht2]
  have hr : (loaderCorrect (evalMode cModel) cLoader : ℚ) /
      (loaderTotal cLoader : ℚ) = 1 / 2 := by
    rw [hc, ht2]; norm_num
  refine ⟨hv, hr, ?_⟩
  rw [hv, hr]
  norm_num

/-- C4 amended: for every model state and non-empty testing loader, the value
`valid` returns is `100 * correct / total`, the percentage of examples whose
predicted class index (the row-wise argmax of the model outputs, in eval
mode) equals the target, over all examples the loader yields. -/
theorem valid_accuracy_percentage (model : Model) (loader : List Batch)
    (_h : loader ≠ []) :
    (valid model loader).1 =
      ((loaderCorrect (evalMode model) loader : ℚ) * 100) /
        (loaderTotal loader : ℚ) := by
  have hfold := valid_foldl_spec (evalMode model) loader 0 0 0
  simp [valid, hfold]

/-- Witness for C4 amended at the concrete model and loader. -/
theorem valid_accuracy_percentage_witness :
    (valid cModel cLoader).1 =
      ((loaderCorrect (evalMode cModel) cLoader : ℚ) * 100) /
        (loaderTotal cLoader : ℚ) :=
  valid_accuracy_percentage cModel cLoader (by decide)

/-- C9: for every model state and every testing loader, `valid` returns the
accuracy while leaving every parameter of the model unchanged (the forward
computation too); only the train/eval mode flag is cleared, and no gradient
or weight update takes place in the loop. -/
theorem valid_frame (model : Model) (loader : List Batch) :
    ((valid model loader).2).params = model.params ∧
    ((valid model loader).2).forward = model.forward ∧
    (valid model loader).1 =
      ((loaderCorrect (evalMode model) loader : ℚ) * 100) /
        (loaderTotal loader : ℚ) := by
  have hfold := valid_foldl_spec (evalMode model) loader 0 0 0
  have h2 : (valid model loader).2 = evalMode model := by simp [valid, hfold]
  refine ⟨by rw [h2]; rfl, by rw [h2]; rfl, by simp [valid, hfold]⟩

/-- C6: the pipeline is linear and single-run — `EPOCHS = 1`, so the loop
`for epoch in range(EPOCHS)` invokes `train` exactly once; the trace loads
the data first, runs validation exactly once after training, and saves the
two artifacts only after validation. -/
theorem pipeline_single_run_linear :
    EPOCHS = 1 ∧
    trainInvocations.length = EPOCHS ∧
    (scriptTrace.filter Step.isTrain).length = 1 ∧
    (scriptTrace.filter fun s => s == Step.runValidation).length = 1 ∧
    scriptTrace.indexOf Step.loadData <
      scriptTrace.indexOf (Step.trainEpoch 0) ∧
    scriptTrace.indexOf (Step.trainEpoch 0) <
      scriptTrace.indexOf Step.runValidation ∧
    scriptTrace.indexOf Step.runValidation <
      scriptTrace.indexOf Step.saveModel ∧
    scriptTrace.indexOf Step.runValidation <
      scriptTrace.indexOf Step.saveVocab := by
  decide

/-- C7: the script's file interactions are exactly one read — the
tab-separated corpus parsed into the eight named columns — and two writes,
the serialized model weights and the serialized vocabulary. -/
theorem external_interfaces_file_io :
    (scriptIOTrace.filter IOEvent.isRead).length = 1 ∧
    scriptIOTrace.head? =
      some (IOEvent.readFile "./data/newsCorpora.csv" '\t' inputColumns) ∧
    inputColumns.length = 8 ∧
    inputColumns = ["ID", "TITLE", "URL", "PUBLISHER", "CATEGORY", "STORY",
      "HOSTNAME", "TIMESTAMP"] ∧
    (scriptIOTrace.filter IOEvent.isWrite).length = 2 ∧
    (scriptIOTrace.filter IOEvent.isWrite).map
        (fun ev => match ev with
          | IOEvent.writeFile path _ => path
          | IOEvent.readFile path _ _ => path) =
      [output_model_file, output_vocab_file] ∧
    scriptIOTrace.length = 3 := by
  refine ⟨rfl, rfl, rfl, rfl, rfl, rfl, rfl⟩

/-- C8 as stated is false: the tokenizer checkpoint string is
`distilbert-base-cased` while the encoder inside the model is loaded from
`distilbert-base-uncased`; the two strings differ. -/
theorem checkpoints_differ :
    ¬ tokenizer_checkpoint = distillBERTClassInit.l1_checkpoint := by
  decide

/-- C8 amended: the tokenizer is loaded from the checkpoint
`distilbert-base-cased`, the encoder from `distilbert-base-uncased`, so the
saved vocabulary does not come from the same checkpoint as the encoder. -/
theorem checkpoints_values :
    tokenizer_checkpoint = "distilbert-base-cased" ∧
    distillBERTClassInit.l1_checkpoint = "distilbert-base-uncased" ∧
    tokenizer_checkpoint ≠ distillBERTClassInit.l1_checkpoint := by
  refine ⟨rfl, rfl, by decide⟩

/-- C10: both dataloaders are built with `num_workers = 0`, so the script
spawns no loader worker processes. -/
theorem dataloaders_no_workers :
    train_params.num_workers = 0 ∧ test_params.num_workers = 0 := by
  refine ⟨rfl, rfl⟩

end NewsMulticlass
